import Mathlib

/-!
Verification development for the PersonalizedStremioCatalogues add-on.

The JavaScript sources are shallowly embedded: every pure computation is
translated into an executable Lean definition, and every network-facing
function is translated into a pure function of an explicit environment
that records the outcomes of its fetches (a fetch that throws or returns
a non-success status is an explicit constructor of that environment).
Machine numbers are modelled with Nat/Int; the one floating-point
computation (Math.floor(similarity * 40) in calculateMatchConfidence) is
modelled with exact integer arithmetic, matching the floor formula.
-/

/-! ## JavaScript primitives shared by several services -/

/-- JS truthiness of an optional number: null/undefined and 0 are falsy. -/
def jsTruthyInt : Option Int → Bool
  | none => false
  | some n => n != 0

/-- JS truthiness of an optional string: null/undefined and the empty string are falsy. -/
def jsTruthyStr : Option String → Bool
  | none => false
  | some s => s != ""

/-- JS `a || b` on nullable strings (empty string is falsy). -/
def jsOrStr (a : Option String) (b : String) : String :=
  match a with
  | none => b
  | some s => if s = "" then b else s

/-- JS `a || b` where both sides are nullable strings. -/
def jsOrStrOpt (a b : Option String) : Option String :=
  match a with
  | none => b
  | some s => if s = "" then b else some s

/-- Digits of a decimal numeral, most significant first, folded to a Nat. -/
def digitsToNat (cs : List Char) : Nat :=
  cs.foldl (fun acc c => acc * 10 + (c.toNat - '0'.toNat)) 0

/-- JS `parseInt` on a string (decimal): skip leading whitespace, read an
optional sign and then a maximal run of ASCII digits; `none` models NaN
(no digits found). Trailing garbage is ignored, as in JS. -/
def jsParseInt (s : String) : Option Int :=
  let cs := s.toList.dropWhile Char.isWhitespace
  let (neg, cs) : Bool × List Char :=
    match cs with
    | '-' :: rest => (true, rest)
    | '+' :: rest => (false, rest)
    | _ => (false, cs)
  let digits := cs.takeWhile Char.isDigit
  if digits.isEmpty then none
  else
    let n : Int := Int.ofNat (digitsToNat digits)
    some (if neg then -n else n)

/-- JS `a.includes(b)` on strings: `b` occurs as a contiguous substring of `a`
(the empty string is contained in everything, as in JS). -/
def jsIncludes (a b : String) : Bool :=
  decide (b.toList <:+: a.toList)

/-- Strip whitespace from both ends of a character list. -/
def trimChars (cs : List Char) : List Char :=
  ((cs.dropWhile Char.isWhitespace).reverse.dropWhile Char.isWhitespace).reverse

/-- JS `s.trim()`: whitespace stripped from both ends (the JS whitespace
class restricted to the ASCII whitespace that actually occurs here). -/
def jsTrim (s : String) : String :=
  String.mk (trimChars s.toList)

/-! ## Title-Match Engine (src/services/titleMatcher.js) -/

namespace TitleMatcher

/-- `searchTitle.toLowerCase().trim()` — lowercase then trim. -/
def lowerTrim (s : String) : String :=
  jsTrim (String.mk (s.toList.map Char.toLower))

/-- `parseInt(foundDate.split('-')[0])`: the text before the first dash,
fed to parseInt. -/
def yearOfDate (d : String) : Option Int :=
  jsParseInt (String.mk (d.toList.takeWhile (fun c => c ≠ '-')))

/-- Translation of `calculateMatchConfidence(searchTitle, foundTitle,
searchYear, foundDate)` (titleMatcher.js lines 94-129).

`confidence` starts at 0, gains a title-similarity part (70 exact / 50
containment / floor(similarity*40)), gains a year part (30 / 20 / 10 inside
the `searchYear && foundDate` branch, flat 15 in its else branch), and is
clamped with `Math.min(confidence, 100)`. The `(foundTitle || '')` guard is
the identity here because `foundTitle` is a string. The double division
`shorter.length / longer.length` scaled by 40 and floored is modelled as
exact integer division. -/
def calculateMatchConfidence (searchTitle foundTitle : String)
    (searchYear : Option Int) (foundDate : Option String) : Nat :=
  let searchLower := lowerTrim searchTitle
  let foundLower := lowerTrim foundTitle
  let titlePart : Nat :=
    if searchLower = foundLower then 70
    else if jsIncludes foundLower searchLower || jsIncludes searchLower foundLower then 50
    else
      let longer := if searchLower.length > foundLower.length then searchLower else foundLower
      let shorter := if searchLower.length > foundLower.length then foundLower else searchLower
      shorter.length * 40 / longer.length
  let yearPart : Nat :=
    if jsTruthyInt searchYear && jsTruthyStr foundDate then
      match searchYear, foundDate with
      | some sy, some fd =>
        match yearOfDate fd with
        | some foundYear =>
          if sy = foundYear then 30
          else if (sy - foundYear).natAbs ≤ 1 then 20
          else if (sy - foundYear).natAbs ≤ 2 then 10
          else 0
        | none => 0   -- foundYear is NaN: every comparison is false
      | _, _ => 0     -- unreachable: truthiness forces both to be present
    else 15
  min (titlePart + yearPart) 100

/-- The claim's title-similarity component, written from its words: 70 on a
case-insensitive match after trimming, 50 when one contains the other, else
floor(40 x shorter.length / longer.length). -/
def specTitleScore (searchTitle foundTitle : String) : Nat :=
  let a := lowerTrim searchTitle
  let b := lowerTrim foundTitle
  if a = b then 70
  else if jsIncludes a b || jsIncludes b a then 50
  else 40 * min a.length b.length / max a.length b.length

/-- The claim's year component, read literally: 30 exact, 20 within one
year, 10 within two, a flat 15 only when NO year is available on EITHER
side, and 0 in every other case. -/
def specYearScoreClaim (searchYear : Option Int) (foundDate : Option String) : Nat :=
  if jsTruthyInt searchYear && jsTruthyStr foundDate then
    match searchYear, foundDate with
    | some sy, some fd =>
      match yearOfDate fd with
      | some foundYear =>
        if sy = foundYear then 30
        else if (sy - foundYear).natAbs ≤ 1 then 20
        else if (sy - foundYear).natAbs ≤ 2 then 10
        else 0
      | none => 0
    | _, _ => 0
  else if !jsTruthyInt searchYear && !jsTruthyStr foundDate then 15
  else 0

/-- The amended year component: the flat 15 applies whenever year
information is missing on AT LEAST one side, not only when it is missing
on both. -/
def specYearScoreAmended (searchYear : Option Int) (foundDate : Option String) : Nat :=
  if jsTruthyInt searchYear && jsTruthyStr foundDate then
    match searchYear, foundDate with
    | some sy, some fd =>
      match yearOfDate fd with
      | some foundYear =>
        if sy = foundYear then 30
        else if (sy - foundYear).natAbs ≤ 1 then 20
        else if (sy - foundYear).natAbs ≤ 2 then 10
        else 0
      | none => 0
    | _, _ => 0
  else 15

end TitleMatcher

namespace TitleMatcher

/-- Search result object of TMDB `/search/multi` as the code reads it. -/
structure TMSearchResult where
  id : Nat
  media_type : String
  title : Option String := none
  name : Option String := none
  release_date : Option String := none
  first_air_date : Option String := none
deriving DecidableEq

/-- Match object returned by titleMatcher.searchTMDB. -/
structure TMMatch where
  imdbId : String
  type : String
  title : Option String
  year : Option Int
  matchConfidence : Nat
deriving DecidableEq

/-- Translation of `getIMDBIdFromTMDB` (titleMatcher.js lines 67-84), as a
function of the recorded outcome of its external-ids fetch: outer `none`
is a non-success response or a thrown fetch/json error (both yield null),
inner value is the nullable `data.imdb_id` field; `imdb_id || null` turns
an empty string into null as well. -/
def getIMDBIdFromTMDB (extResp : Option (Option String)) : Option String :=
  match extResp with
  | none => none
  | some v =>
    match v with
    | none => none
    | some s => if s = "" then none else some s

/-- The `result.release_date ? parseInt(...) : result.first_air_date ?
parseInt(...) : null` field (NaN modelled as `none`). -/
def tmYearField (rd fad : Option String) : Option Int :=
  if jsTruthyStr rd then yearOfDate (rd.getD "")
  else if jsTruthyStr fad then yearOfDate (fad.getD "")
  else none

/-- Translation of titleMatcher.searchTMDB (lines 15-59), as a function of
the recorded outcomes of its two fetches. `searchResp = none` models a
non-success search response or a thrown error (both return null); `extIds`
records, per (tmdbId, mediaType), the outcome of the external-ids fetch.
The code takes the FIRST search result, resolves its IMDB id, and returns
null when that resolution yields nothing. -/
def searchTMDB (searchResp : Option (List TMSearchResult))
    (extIds : Nat → String → Option (Option String))
    (title : String) (year : Option Int) : Option TMMatch :=
  match searchResp with
  | none => none
  | some results =>
    match results with
    | [] => none
    | result :: _ =>
      match getIMDBIdFromTMDB (extIds result.id result.media_type) with
      | none => none
      | some imdbId =>
        some {
          imdbId := imdbId
          type := if result.media_type = "movie" then "movie" else "series"
          title := jsOrStrOpt result.title result.name
          year := tmYearField result.release_date result.first_air_date
          matchConfidence := calculateMatchConfidence title
            ((jsOrStrOpt result.title result.name).getD "") year
            (jsOrStrOpt result.release_date result.first_air_date) }

end TitleMatcher

/-! ## Cache (src/utils/cache.js), in-memory branch

The Redis branch of every method delegates to the external network-backed
store, which the spec places out of scope; the in-memory branch below is
the translated fallback store. Time is an explicit `now : Nat`
(milliseconds, `Date.now()`). -/

namespace Cache

/-- An entry of `this.store`: `{ value, expiry }`. -/
structure Entry (α : Type) where
  value : α
  expiry : Nat
deriving DecidableEq

/-- Translation of `Cache.get` (in-memory branch): a missing key is a miss;
a key read strictly after its expiry is a miss and the entry is deleted
(`this.store.delete(key)`); otherwise the stored value is returned. The
result pairs the returned value with the store after the call. -/
def get {α : Type} (store : List (String × Entry α)) (now : Nat) (key : String) :
    Option α × List (String × Entry α) :=
  match store.lookup key with
  | none => (none, store)
  | some item =>
    if now > item.expiry then
      (none, store.filter (fun p => !(p.1 == key)))
    else
      (some item.value, store)

/-- Translation of `Cache.set` (in-memory branch): `expiry = Date.now() + ttl`,
`this.store.set(key, ...)` replaces any previous binding of the key. -/
def set {α : Type} (store : List (String × Entry α)) (now : Nat) (key : String)
    (value : α) (ttl : Nat) : List (String × Entry α) :=
  (key, { value := value, expiry := now + ttl }) :: store.filter (fun p => !(p.1 == key))

end Cache

/-! ## Catalog item shape shared by the provider models -/

/-- Stremio meta object, with the fields the services actually set. Absent
(undefined) nullable fields are `none`. -/
structure Meta where
  id : String
  type : String
  name : String
  description : String := ""
  poster : Option String := none
  background : Option String := none
  genres : Option (List String) := none
  releaseInfo : String := ""
  imdbRating : Option String := none
  cast : List String := []
deriving DecidableEq

/-! ## TMDB service (src/services/tmdbService.js) -/

namespace TmdbService

/-- The `combined.filter` with a `seen` Set in getNewAndPopular (lines
139-175): an item passes iff its id was not seen before, and passing adds
its id to the set. `seen` is the list of ids added so far. -/
def dedupByIdAux (seen : List String) : List Meta → List Meta
  | [] => []
  | x :: xs =>
    if seen.contains x.id then dedupByIdAux seen xs
    else x :: dedupByIdAux (x.id :: seen) xs

/-- Translation of the combine-and-deduplicate step of `getNewAndPopular`:
both the movie branch (trending ++ nowPlaying) and the series branch
(trending ++ popular) concatenate the two already-fetched endpoint result
lists and filter with an initially empty `seen` set. -/
def getNewAndPopular (trending second : List Meta) : List Meta :=
  dedupByIdAux [] (trending ++ second)

/-- The spec's description of the output: keep each list element whose id
has not occurred earlier, at the position of its first occurrence,
preserving the relative order of first occurrences. -/
def firstOccurrences : List Meta → List Meta
  | [] => []
  | x :: xs => x :: firstOccurrences (xs.filter (fun y => !(y.id == x.id)))
termination_by l => l.length
decreasing_by
  simp only [List.length_cons]
  exact Nat.lt_succ_of_le (List.length_filter_le _ _)

end TmdbService

/-! ## Catalog handler pagination (src/addon.js, defineCatalogHandler) -/

namespace Addon

/-- `parseInt(extra?.skip) || 0`: a missing extra/skip gives parseInt(NaN),
and NaN || 0 is 0; a parsed 0 stays 0 through `|| 0`. -/
def parsedSkip (extraSkip : Option String) : Int :=
  match extraSkip with
  | none => 0
  | some s =>
    match jsParseInt s with
    | none => 0
    | some n => n

/-- JS `Array.prototype.slice(start, end)` semantics: negative indices are
relative to the end, indices are clamped to [0, length], and the result is
the (possibly empty) window between them. -/
def jsSlice {α : Type} (l : List α) (start fin : Int) : List α :=
  let len : Int := l.length
  let k : Int := if start < 0 then max (len + start) 0 else min start len
  let e : Int := if fin < 0 then max (len + fin) 0 else min fin len
  (l.drop k.toNat).take (e - k).toNat

/-- The pagination step of the catalog handler (addon.js lines 158-161):
`const skip = parseInt(extra?.skip) || 0; metas.slice(skip, skip + 100)`. -/
def paginate (metas : List Meta) (extraSkip : Option String) : List Meta :=
  jsSlice metas (parsedSkip extraSkip) (parsedSkip extraSkip + 100)

end Addon

/-! ## Netflix Top-10 Reconciler (src/services/netflixService.js)

The cheerio DOM walk over the fetched page is the boundary to an external
library; the model starts from its output: the ordered list of rows that
yielded a usable title (`top10Items`, each `{ rank, title, weeks }`). The
per-row title cleanup regex is modelled separately (`jsOrdinalStrip`).
Fetch outcomes are explicit: the page fetch carries a success flag (a
non-success status throws and is caught by the outer handler), the search
fetch per query string yields `none` for a non-success/thrown request or
`some results`, and the detail fetch yields one of thrown error /
non-success / parsed data. -/

namespace NetflixService

/-- Content type selector (the `type` string argument). -/
inductive MType
  | movie
  | series
deriving DecidableEq

/-- `type === 'movie' ? 'movie' : 'series'`. -/
def typeStr : MType → String
  | .movie => "movie"
  | .series => "series"

/-- The fixed character map of `transliterate` (netflixService.js lines
31-46); unmapped characters pass through. -/
def translitChar (c : Char) : String :=
  match c with
  | 'å' => "aa" | 'Å' => "Aa"
  | 'ä' => "ae" | 'Ä' => "Ae"
  | 'ö' => "oe" | 'Ö' => "Oe"
  | 'ü' => "ue" | 'Ü' => "Ue"
  | 'é' => "e" | 'è' => "e" | 'ê' => "e" | 'ë' => "e"
  | 'á' => "a" | 'à' => "a" | 'â' => "a" | 'ã' => "a"
  | 'í' => "i" | 'ì' => "i" | 'î' => "i" | 'ï' => "i"
  | 'ó' => "o" | 'ò' => "o" | 'ô' => "o" | 'õ' => "o"
  | 'ú' => "u" | 'ù' => "u" | 'û' => "u"
  | 'ñ' => "n" | 'ç' => "c" | 'ß' => "ss"
  | _ => String.mk [c]

/-- `text.split('').map(char => map[char] || char).join('')`. -/
def transliterate (text : String) : String :=
  String.join (text.toList.map translitChar)

/-- Worker for whitespace-run collapsing; the flag says whether the
previous character was whitespace (so the run already emitted its space). -/
def collapseWsAux : Bool → List Char → List Char
  | _, [] => []
  | prevWs, c :: cs =>
    if c.isWhitespace then
      if prevWs then collapseWsAux true cs
      else ' ' :: collapseWsAux true cs
    else c :: collapseWsAux false cs

/-- `title.replace(/\s+/g, ' ')`: every maximal whitespace run becomes a
single space. -/
def collapseWs (s : String) : String :=
  String.mk (collapseWsAux false s.toList)

/-- `[...new Set(arr)]`: first-seen deduplication, preserving order. -/
def dedupFirstStrAux (seen : List String) : List String → List String
  | [] => []
  | x :: xs =>
    if seen.contains x then dedupFirstStrAux seen xs
    else x :: dedupFirstStrAux (x :: seen) xs

/-- `const uniqueVariations = [...new Set(searchVariations)]`. -/
def dedupFirstStr (l : List String) : List String :=
  dedupFirstStrAux [] l

/-- TMDB data as the reconciler consumes it. A search result carries at
least the numeric id; the detail object additionally carries the fields
the meta builder reads. The pure field reshaping the code performs after a
successful detail fetch (`external_ids.imdb_id` copied to `imdb_id`, genre
names extracted when non-empty, top-10 cast names) is folded into the
record: `imdb_id`, `genreNames` and `cast` hold the reshaped values. -/
structure TmdbData where
  id : Nat
  imdb_id : Option String := none
  title : Option String := none
  name : Option String := none
  overview : Option String := none
  backdrop_path : Option String := none
  genreNames : Option (List String) := none
  release_date : Option String := none
  first_air_date : Option String := none
  voteAverageStr : Option String := none
  cast : Option (List String) := none
deriving DecidableEq

/-- Outcome of the detail fetch for a search hit: a thrown fetch/json
error (caught by the loop's try/catch), a non-success response (the code
falls back to the basic search result), or parsed detail data. -/
inductive DetailOutcome
  | fetchError
  | notOk
  | ok (d : TmdbData)
deriving DecidableEq

/-- Environment of one reconciler run: config flag, recorded fetch
outcomes, and the runtime facilities the code calls
(String.normalize-based diacritics stripping, encodeURIComponent, base
URLs). -/
structure NsEnv where
  apiKeyConfigured : Bool
  search : String → Option (List TmdbData)
  detail : Nat → DetailOutcome
  nfdStrip : String → String
  encodeURIComponent : String → String
  baseUrl : String
  imageBaseUrl : String

/-- The three search variations, deduplicated first-seen (netflixService.js
lines 63-72): cleaned original, transliterated, Unicode-normalized with
combining marks stripped (the latter is the runtime facility `nfdStrip`). -/
def uniqueVariations (env : NsEnv) (title : String) : List String :=
  let cleanTitle := jsTrim (collapseWs title)
  dedupFirstStr [cleanTitle, transliterate cleanTitle, env.nfdStrip cleanTitle]

/-- One iteration of the variation loop (lines 84-133): a failed or empty
search continues to the next variation (`none`); on a hit, a thrown detail
fetch also continues (the catch wraps both fetches), a non-success detail
response returns the basic first result, and otherwise the detail data is
returned. -/
def attemptVariation (env : NsEnv) (searchTerm : String) : Option TmdbData :=
  match env.search searchTerm with
  | none => none
  | some [] => none
  | some (firstResult :: _) =>
    match env.detail firstResult.id with
    | .fetchError => none
    | .notOk => some firstResult
    | .ok detailData => some detailData

/-- The `for` loop over the unique variations: first attempt that returns
a value wins; exhaustion returns null. -/
def tryVariationsList (env : NsEnv) : List String → Option TmdbData
  | [] => none
  | v :: vs =>
    match attemptVariation env v with
    | some d => some d
    | none => tryVariationsList env vs

/-- Translation of netflixService.searchTMDB (lines 55-139). A missing API
key short-circuits to null; otherwise the variation loop runs. The media
type only selects the endpoint inside the URLs, which live in the recorded
fetch outcomes. -/
def searchTMDB (env : NsEnv) (title : String) : Option TmdbData :=
  if !env.apiKeyConfigured then none
  else tryVariationsList env (uniqueVariations env title)

/-- A parsed row of the Top-10 table: `{ rank, title, weeks }`. -/
structure RowItem where
  rank : Nat
  title : String
  weeks : String
deriving DecidableEq

/-- The leading-ordinal cleanup regex `^\d{1,2}\.?\s*` (line 265): one or
two leading ASCII digits (greedy), an optional single dot, then a
whitespace run, all removed; a string not starting with a digit is
unchanged. -/
def jsOrdinalStrip (cs : List Char) : List Char :=
  match cs with
  | [] => []
  | c1 :: rest =>
    if c1.isDigit then
      let afterDigits :=
        match rest with
        | c2 :: r2 => if c2.isDigit then r2 else rest
        | [] => []
      let afterDot :=
        match afterDigits with
        | '.' :: r3 => r3
        | _ => afterDigits
      afterDot.dropWhile Char.isWhitespace
    else cs

/-- `title.replace(/^\d{1,2}\.?\s*/, '').trim()`. -/
def rowTitleClean (s : String) : String :=
  jsTrim (String.mk (jsOrdinalStrip s.toList))

/-- The hardcoded fallback movie titles (getFallbackData, lines 361-365). -/
def movieTitles : List String :=
  ["Frankenstein", "A Merry Little Ex-Mas", "In Your Dreams",
   "KPop Demon Hunters", "Hanna", "Being Eddie",
   "Lilla spöket Laban spökar igen", "A HOUSE OF DYNAMITE", "Twisters"]

/-- The hardcoded fallback show titles (lines 367-370). -/
def showTitles : List String :=
  ["The Beast in Me", "Squid Game", "Outer Banks",
   "The Diplomat", "The Crown", "Wednesday"]

/-- Translation of getFallbackData (lines 359-383): the static sample
list, sliced to 10 and mapped to metas. -/
def getFallbackData (enc : String → String) (type : MType) : List Meta :=
  let titles := match type with | .movie => movieTitles | .series => showTitles
  (titles.take 10).mapIdx (fun index title =>
    { id := "netflix:se:fallback:" ++ toString (index + 1) ++ ":" ++ enc title
      type := typeStr type
      name := title
      description := "#" ++ toString (index + 1) ++
        " on Netflix Sweden (Sample data - scraping unavailable)"
      poster := some ("https://via.placeholder.com/500x750/E50914/FFFFFF?text=Netflix+"
        ++ toString (index + 1))
      genres := some ["Netflix Top 10", "Popular"]
      releaseInfo := "2024" })

/-- Per-item enrichment closure (lines 298-339): a TMDB hit builds the
enriched meta (badge-overlay poster URL, external id preferred over the
provider-local one), a miss builds the synthetic basic meta. -/
def enrichItem (env : NsEnv) (type : MType) (item : RowItem) : Meta :=
  match searchTMDB env item.title with
  | some tmdbData =>
    let itemId := jsOrStr tmdbData.imdb_id ("tmdb:" ++ toString tmdbData.id)
    let itemType := typeStr type
    { id := itemId
      type := itemType
      name := jsOrStr (jsOrStrOpt tmdbData.title tmdbData.name) item.title
      description := jsOrStr tmdbData.overview
        ("#" ++ toString item.rank ++ " on Netflix Sweden Top 10")
      poster := some (env.baseUrl ++ "/poster/" ++ itemType ++ "/" ++
        toString item.rank ++ "/" ++ env.encodeURIComponent itemId ++ ".jpg")
      background :=
        if jsTruthyStr tmdbData.backdrop_path then
          some (env.imageBaseUrl ++ "/original" ++ tmdbData.backdrop_path.getD "")
        else none
      genres := some (match tmdbData.genreNames with
        | some g => g
        | none => ["Netflix Top 10", "Popular"])
      releaseInfo :=
        if jsTruthyStr tmdbData.release_date then (tmdbData.release_date.getD "").take 4
        else if jsTruthyStr tmdbData.first_air_date then (tmdbData.first_air_date.getD "").take 4
        else "2024"
      imdbRating := tmdbData.voteAverageStr
      cast := match tmdbData.cast with | some c => c | none => [] }
  | none =>
    { id := "netflix:se:" ++ toString item.rank ++ ":" ++ env.encodeURIComponent item.title
      type := typeStr type
      name := item.title
      description := "#" ++ toString item.rank ++ " on Netflix Sweden Top 10 - "
        ++ item.weeks ++ " weeks in top 10"
      genres := some ["Netflix Top 10", "Popular"]
      releaseInfo := "2024" }

/-- Translation of scrapeNetflixTop10 after the DOM extraction (lines
204-352): a failed page fetch throws and the catch returns the fallback;
zero parsed rows return the fallback; otherwise the parsed rows are
truncated to 10 and each is enriched (one meta per row). -/
def scrapeNetflixTop10 (env : NsEnv) (type : MType) (fetchOk : Bool)
    (top10Items : List RowItem) : List Meta :=
  if !fetchOk then getFallbackData env.encodeURIComponent type
  else if top10Items.isEmpty then getFallbackData env.encodeURIComponent type
  else (top10Items.take 10).map (enrichItem env type)

/-! ### Request-issue traces for the pacing claim

`scrapeNetflixTop10` enriches via `limitedItems.map(async item => ...)`
followed by `Promise.all`: the map synchronously starts every closure, each
of which runs to its first await — the title-search fetch — before any
response is processed, and no timer (`setTimeout`) occurs anywhere in the
function. `titleMatcher.batchSearch` (lines 137-167) instead awaits each
search and then sleeps 250 ms between consecutive iterations. The traces
below record, in program order, the issued title-search requests and the
programmed sleeps. -/

/-- A request-issue event: a title-search request or a programmed sleep. -/
inductive ReqEvent
  | searchReq (query : String)
  | sleepMs (ms : Nat)
deriving DecidableEq

/-- Issue trace of the Netflix enrichment: one search per row, no sleeps. -/
def netflixEnrichTrace (titles : List String) : List ReqEvent :=
  titles.map ReqEvent.searchReq

/-- Issue trace of titleMatcher.batchSearch: one search per title with a
250 ms sleep between consecutive iterations (`if (i < titles.length - 1)`). -/
def batchSearchTrace : List String → List ReqEvent
  | [] => []
  | t :: rest =>
    ReqEvent.searchReq t ::
      (match rest with
       | [] => []
       | _ :: _ => ReqEvent.sleepMs 250 :: batchSearchTrace rest)

/-- Worker for the pacing predicate: `acc` is the slept time since the
last search request. -/
def pacedAux (d : Nat) : Nat → List ReqEvent → Bool
  | _, [] => true
  | acc, ReqEvent.sleepMs m :: rest => pacedAux d (acc + m) rest
  | acc, ReqEvent.searchReq _ :: rest => decide (d ≤ acc) && pacedAux d 0 rest

/-- The claim's pacing property: between any two successive search
requests at least `d` ms of programmed delay elapse. -/
def pacedAtLeast (d : Nat) (tr : List ReqEvent) : Bool :=
  pacedAux d d tr

/-- Event classifier: is this a search request? -/
def isSearchReq : ReqEvent → Bool
  | ReqEvent.searchReq _ => true
  | ReqEvent.sleepMs _ => false

end NetflixService

/-- A reconciler environment whose searches all come back empty. -/
def envNoResults : NetflixService.NsEnv :=
  { apiKeyConfigured := true
    search := fun _ => some []
    detail := fun _ => NetflixService.DetailOutcome.fetchError
    nfdStrip := fun s => s
    encodeURIComponent := fun s => s
    baseUrl := "http://localhost:8000"
    imageBaseUrl := "https://image.tmdb.org/t/p" }

/-- A reconciler environment for the Förlåt scenario: the raw spelling
finds nothing, the transliterated spelling "Foerlaat" finds a hit whose
detail fetch succeeds. -/
def envFoerlaat : NetflixService.NsEnv :=
  { apiKeyConfigured := true
    search := fun q => if q = "Foerlaat" then some [{ id := 42 }] else some []
    detail := fun _ => NetflixService.DetailOutcome.ok { id := 42, imdb_id := some "tt0000042" }
    nfdStrip := fun _ => "Forlat"
    encodeURIComponent := fun s => s
    baseUrl := "http://localhost:8000"
    imageBaseUrl := "https://image.tmdb.org/t/p" }

/-- A reconciler environment where the first variation's search returns a
non-empty result set but its detail fetch throws, and the second
variation fully succeeds. -/
def envDetailErr : NetflixService.NsEnv :=
  { apiKeyConfigured := true
    search := fun q =>
      if q = "Aö" then some [{ id := 1 }]
      else if q = "Aoe" then some [{ id := 2 }]
      else some []
    detail := fun i =>
      if i = 1 then NetflixService.DetailOutcome.fetchError
      else NetflixService.DetailOutcome.ok { id := 2 }
    nfdStrip := fun s => s
    encodeURIComponent := fun s => s
    baseUrl := "http://localhost:8000"
    imageBaseUrl := "https://image.tmdb.org/t/p" }

/-! ## Trakt recommendations fallback chain (src/server.js
getMovieRecommendations and the trakt branch of the catalog handler in
src/addon.js) -/

namespace TraktService

/-- A raw Trakt recommendation item; its content is only passed through
mapTraktToMeta, which is environment-supplied (it performs its own TMDB
fetches). -/
structure TraktItem where
  idx : Nat
deriving DecidableEq

/-- Outcome of the recommendations fetch: thrown network error,
non-success HTTP status, or parsed data. -/
inductive FetchOutcome
  | netErr
  | httpErr (status : Nat)
  | ok (data : List TraktItem)

/-- Environment of one recommendations read: the cache lookup result, the
token check (`tokenManager.isAuthenticated`), the recommendations fetch
outcome, the (abstracted) result of getTrendingMovies, and the
(abstracted) per-item meta mapper. -/
structure TraktEnv where
  cached : Option (List Meta)
  isAuth : Bool
  recsResp : FetchOutcome
  trending : List Meta
  mapTraktToMeta : TraktItem → Meta

/-- Translation of getMovieRecommendations (server.js lines 356-407): a
cache hit short-circuits; an unauthenticated token falls back to
trending; a 401 falls back to trending, any other non-success status
throws and the catch also returns trending, as does a thrown fetch; an
empty personalized result set falls back to trending; otherwise the items
are mapped to metas. -/
def getMovieRecommendations (env : TraktEnv) : List Meta :=
  match env.cached with
  | some cachedMetas => cachedMetas
  | none =>
    if !env.isAuth then env.trending
    else
      match env.recsResp with
      | .netErr => env.trending
      | .httpErr _ => env.trending
      | .ok data =>
        if data.isEmpty then env.trending
        else data.map env.mapTraktToMeta

/-- The trakt-recommendations branch of the catalog handler (addon.js
lines 119-139, 158-161): a missing session returns `{ metas: [] }` before
the service is consulted, an invalid session likewise; only a valid
session reaches getMovieRecommendations, whose result is then paginated. -/
def catalogHandlerTraktMovie (session : Option String)
    (validSession : String → Bool) (env : TraktEnv)
    (extraSkip : Option String) : List Meta :=
  match session with
  | none => []
  | some sid =>
    if !(validSession sid) then []
    else Addon.paginate (getMovieRecommendations env) extraSkip

end TraktService

/-- A Trakt environment with a non-empty trending list. -/
def envTrendingOnly : TraktService.TraktEnv :=
  { cached := none
    isAuth := false
    recsResp := TraktService.FetchOutcome.netErr
    trending := [{ id := "tt0000001", type := "movie", name := "Trending One" }]
    mapTraktToMeta := fun _ => { id := "x", type := "movie", name := "x" } }

/-- Helper: the title component as the source computes it (longer/shorter by
an explicit comparison) agrees with the claim's min/max formulation. -/
theorem titleComponent_eq (a b : String) :
    (if a = b then (70 : Nat)
     else if jsIncludes b a || jsIncludes a b then 50
     else (if a.length > b.length then b else a).length * 40 /
          (if a.length > b.length then a else b).length)
    = (if a = b then (70 : Nat)
       else if jsIncludes a b || jsIncludes b a then 50
       else 40 * min a.length b.length / max a.length b.length) := by
  by_cases hab : a = b
  · simp [hab]
  · cases h2 : jsIncludes a b <;> cases h3 : jsIncludes b a <;>
      simp only [hab, if_false, h2, h3, Bool.or_false, Bool.false_or,
        Bool.or_true, Bool.true_or, if_true]
    by_cases hlen : a.length > b.length
    · simp [hlen, Nat.mul_comm, min_eq_right (Nat.le_of_lt hlen),
        max_eq_left (Nat.le_of_lt hlen)]
    · have hle : a.length ≤ b.length := Nat.le_of_not_lt hlen
      simp [hlen, Nat.mul_comm, min_eq_left hle, max_eq_right hle]

/-- C1 (amended): for every search title, found title, optional year and
optional date, the confidence is the clamped sum of the claim's title
component and the amended year component (flat 15 whenever year info is
missing on at least one side). -/
theorem calculateMatchConfidence_eq_spec (s f : String) (y : Option Int) (d : Option String) :
    TitleMatcher.calculateMatchConfidence s f y d
      = min (TitleMatcher.specTitleScore s f + TitleMatcher.specYearScoreAmended y d) 100 := by
  simp only [TitleMatcher.calculateMatchConfidence, TitleMatcher.specTitleScore,
    TitleMatcher.specYearScoreAmended]
  rw [titleComponent_eq]

/-- C1 (counterexample): with a search year but no found date the code
scores 70 + 15 = 85, while the claim as stated (flat 15 only when no year
is available on either side) yields 70. -/
theorem confidence_one_sided_year_cex :
    TitleMatcher.calculateMatchConfidence "a" "a" (some 2020) none = 85 ∧
    min (TitleMatcher.specTitleScore "a" "a"
          + TitleMatcher.specYearScoreClaim (some 2020) none) 100 = 70 ∧
    (85 : Nat) ≠ 70 := by
  refine ⟨by decide, by decide, by decide⟩

/-- C9: the Engine returns null on a failed search fetch, and ALSO when the
search succeeds with a non-empty result list but the external-ids lookup of
the top result yields no IMDB id — so a null result does not mean "no
candidates were found". -/
theorem searchTMDB_null_not_no_candidates
    (extIds : Nat → String → Option (Option String)) (title : String)
    (year : Option Int) (r : TitleMatcher.TMSearchResult)
    (rs : List TitleMatcher.TMSearchResult)
    (h : TitleMatcher.getIMDBIdFromTMDB (extIds r.id r.media_type) = none) :
    TitleMatcher.searchTMDB none extIds title year = none
    ∧ TitleMatcher.searchTMDB (some (r :: rs)) extIds title year = none := by
  refine ⟨rfl, ?_⟩
  simp [TitleMatcher.searchTMDB, h]

/-- C9 witness: a concrete search that finds one candidate whose
external-ids lookup succeeds but carries a null imdb_id still yields null. -/
theorem searchTMDB_null_not_no_candidates_witness :
    TitleMatcher.searchTMDB
        (some [{ id := 7, media_type := "movie", title := some "X" }])
        (fun _ _ => some none) "X" none = none ∧
    (some [({ id := 7, media_type := "movie", title := some "X" } :
        TitleMatcher.TMSearchResult)]).isSome = true :=
  ⟨(searchTMDB_null_not_no_candidates (fun _ _ => some none) "X" none
      { id := 7, media_type := "movie", title := some "X" } [] rfl).2,
   rfl⟩

/-- Helper: a key deleted from the store has no binding left. -/
theorem lookup_erased {α : Type} (l : List (String × Cache.Entry α)) (key : String) :
    (l.filter (fun p => !(p.1 == key))).lookup key = none := by
  induction l with
  | nil => rfl
  | cons p rest ih =>
    rw [List.filter_cons]
    by_cases h : p.1 = key
    · simp only [h, beq_self_eq_true, Bool.not_true, if_false, Bool.false_eq_true]
      exact ih
    · have hf : (!(p.1 == key)) = true := by simp [h]
      simp only [hf, if_true]
      have hk : (key == p.1) = false := by simp [Ne.symm h]
      simp only [List.lookup, hk]
      exact ih

/-- C7: for every store, key, value and TTL, a get performed strictly after
the entry's expiry is a miss (null), identical to a get on a missing key,
and the expired entry is evicted from the store by that access. -/
theorem cache_get_after_ttl
    {α : Type} (store : List (String × Cache.Entry α)) (now0 ttl now1 : Nat)
    (key : String) (v : α) (h : now0 + ttl < now1) :
    (Cache.get (Cache.set store now0 key v ttl) now1 key).1 = none
    ∧ (Cache.get (Cache.set store now0 key v ttl) now1 key).1
        = (Cache.get ([] : List (String × Cache.Entry α)) now1 key).1
    ∧ ((Cache.get (Cache.set store now0 key v ttl) now1 key).2.lookup key) = none := by
  have hlk : (Cache.set store now0 key v ttl).lookup key
      = some { value := v, expiry := now0 + ttl } := by
    simp [Cache.set, List.lookup]
  have hget : Cache.get (Cache.set store now0 key v ttl) now1 key
      = (none, (Cache.set store now0 key v ttl).filter (fun p => !(p.1 == key))) := by
    simp only [Cache.get, hlk]
    rw [if_pos h]
  refine ⟨by rw [hget], by rw [hget]; rfl, ?_⟩
  rw [hget]
  exact lookup_erased _ key

/-- C7 witness: set with ttl = 100 at time 0, read at time 150: a miss, and
the entry is gone. -/
theorem cache_get_after_ttl_witness :
    (Cache.get (Cache.set ([] : List (String × Cache.Entry Nat)) 0 "k" 5 100) 150 "k").1 = none
    ∧ ((Cache.get (Cache.set ([] : List (String × Cache.Entry Nat)) 0 "k" 5 100) 150 "k").2.lookup "k") = none := by
  have h := cache_get_after_ttl ([] : List (String × Cache.Entry Nat)) 0 100 150 "k" 5 (by decide)
  exact ⟨h.1, h.2.2⟩

/-- Helper: the seen-set filter with accumulator `seen` behaves like
first-occurrence deduplication of the sublist of ids not yet seen. -/
theorem dedupByIdAux_eq_firstOccurrences (l : List Meta) :
    ∀ seen : List String,
      TmdbService.dedupByIdAux seen l
        = TmdbService.firstOccurrences (l.filter (fun y => !(seen.contains y.id))) := by
  induction l with
  | nil =>
    intro seen
    simp [TmdbService.dedupByIdAux, TmdbService.firstOccurrences]
  | cons x xs ih =>
    intro seen
    rw [List.filter_cons]
    by_cases h : seen.contains x.id
    · simp only [TmdbService.dedupByIdAux, h, if_true, Bool.not_true, Bool.false_eq_true,
        if_false]
      exact ih seen
    · have hb : seen.contains x.id = false := by
        exact Bool.not_eq_true _ ▸ (by simpa using h)
      simp only [TmdbService.dedupByIdAux, hb, Bool.false_eq_true, if_false, Bool.not_false,
        if_true, TmdbService.firstOccurrences]
      rw [ih (x.id :: seen), List.filter_filter]
      congr 2
      apply List.filter_congr
      intro y _
      simp only [List.contains_cons, Bool.not_or]

/-- Helper: every element of `firstOccurrences l` comes from `l`. -/
theorem firstOccurrences_subset (l : List Meta) :
    ∀ y ∈ TmdbService.firstOccurrences l, y ∈ l := by
  induction l using TmdbService.firstOccurrences.induct with
  | case1 => intro y hy; exact absurd hy (by simp [TmdbService.firstOccurrences])
  | case2 x xs ih =>
    intro y hy
    rw [TmdbService.firstOccurrences] at hy
    rcases List.mem_cons.mp hy with h | h
    · exact h ▸ List.mem_cons_self _ _
    · exact List.mem_cons_of_mem _ (List.mem_filter.mp (ih y h)).1

/-- Helper: the ids of `firstOccurrences l` are pairwise distinct. -/
theorem firstOccurrences_nodup (l : List Meta) :
    ((TmdbService.firstOccurrences l).map Meta.id).Nodup := by
  induction l using TmdbService.firstOccurrences.induct with
  | case1 => simp [TmdbService.firstOccurrences]
  | case2 x xs ih =>
    rw [TmdbService.firstOccurrences, List.map_cons, List.nodup_cons]
    refine ⟨?_, ih⟩
    intro hmem
    rcases List.mem_map.mp hmem with ⟨y, hy, hid⟩
    have hyx := (List.mem_filter.mp (firstOccurrences_subset _ y hy)).2
    rw [hid] at hyx
    simp at hyx

/-- Helper: every id of `l` occurs among the ids of `firstOccurrences l`. -/
theorem firstOccurrences_covers (l : List Meta) :
    ∀ a ∈ l, ∃ b ∈ TmdbService.firstOccurrences l, b.id = a.id := by
  induction l using TmdbService.firstOccurrences.induct with
  | case1 => intro a ha; exact absurd ha (List.not_mem_nil a)
  | case2 x xs ih =>
    intro a ha
    rw [TmdbService.firstOccurrences]
    rcases List.mem_cons.mp ha with h | h
    · exact ⟨x, List.mem_cons_self _ _, by rw [h]⟩
    · by_cases hid : a.id = x.id
      · exact ⟨x, List.mem_cons_self _ _, hid.symm⟩
      · have : a ∈ xs.filter (fun y => !(y.id == x.id)) :=
          List.mem_filter.mpr ⟨h, by simp [hid]⟩
        rcases ih a this with ⟨b, hb, hbid⟩
        exact ⟨b, List.mem_cons_of_mem _ hb, hbid⟩

/-- C6: the combined new-and-popular catalog is exactly the first-occurrence
deduplication (by canonical id) of trending concatenated with the second
endpoint result: each id appears once, at the position of its first
occurrence, first-seen order preserved, and every source id is covered. -/
theorem newAndPopular_dedup_first_seen (trending second : List Meta) :
    TmdbService.getNewAndPopular trending second
      = TmdbService.firstOccurrences (trending ++ second)
    ∧ ((TmdbService.getNewAndPopular trending second).map Meta.id).Nodup
    ∧ ((trending ++ second).all
        (fun a => (TmdbService.getNewAndPopular trending second).any
          (fun b => b.id == a.id))) = true := by
  have heq : TmdbService.getNewAndPopular trending second
      = TmdbService.firstOccurrences (trending ++ second) := by
    rw [TmdbService.getNewAndPopular, dedupByIdAux_eq_firstOccurrences]
    congr 1
    simp
  refine ⟨heq, heq ▸ firstOccurrences_nodup _, ?_⟩
  rw [List.all_eq_true]
  intro a ha
  rcases firstOccurrences_covers (trending ++ second) a ha with ⟨b, hb, hbid⟩
  rw [List.any_eq_true]
  exact ⟨b, heq ▸ hb, by simp [hbid]⟩

/-- Helper: slicing any 100-wide window yields at most 100 elements, for
every (possibly negative) start index. -/
theorem jsSlice_length_le {α : Type} (l : List α) (start : Int) :
    (Addon.jsSlice l start (start + 100)).length ≤ 100 := by
  unfold Addon.jsSlice
  simp only [List.length_take, List.length_drop]
  split_ifs <;> omega

/-- Helper: for a non-negative start the slice is exactly drop-then-take. -/
theorem jsSlice_nonneg {α : Type} (l : List α) (n : Nat) :
    Addon.jsSlice l (n : Int) ((n : Int) + 100) = (l.drop n).take 100 := by
  unfold Addon.jsSlice
  have hs : ¬((n : Int) < 0) := by omega
  have he : ¬((n : Int) + 100 < 0) := by omega
  simp only [hs, he, if_false]
  by_cases hn : n ≤ l.length
  · have hk : (min (n : Int) (l.length : Int)).toNat = n := by omega
    rw [hk]
    rw [List.take_eq_take]
    simp only [List.length_drop]
    omega
  · have hk : (min (n : Int) (l.length : Int)).toNat = l.length := by omega
    rw [hk]
    have h1 : l.drop l.length = [] := by simp
    have h2 : l.drop n = [] := List.drop_eq_nil_of_le (by omega)
    rw [h1, h2]
    simp

/-- C10: every catalog response is the [skip, skip+100) window of whatever
list the routed provider produced, hence contains at most 100 items; skip
defaults to 0 (take 100) when the extra parameter is absent or does not
parse as a number. -/
theorem catalog_response_at_most_100 (metas : List Meta) (extraSkip : Option String) (n : Nat) :
    (Addon.paginate metas extraSkip).length ≤ 100
    ∧ Addon.paginate metas none = metas.take 100
    ∧ Addon.paginate metas (some "skip") = metas.take 100
    ∧ Addon.jsSlice metas (n : Int) ((n : Int) + 100) = (metas.drop n).take 100 := by
  refine ⟨jsSlice_length_le _ _, ?_, ?_, jsSlice_nonneg _ _⟩
  · have h := jsSlice_nonneg metas 0
    simpa [Addon.paginate, Addon.parsedSkip] using h
  · have h := jsSlice_nonneg metas 0
    have hp : Addon.parsedSkip (some "skip") = 0 := by rfl
    simp only [Addon.paginate, hp]
    simpa using h

/-- C8 (counterexample): the cleanup regex `^\d{1,2}\.?\s*` does not strip
a `"2) "` style prefix — only the digit is removed, leaving `") Foo"`
instead of the `"Foo"` the claim requires; a `"01. "` prefix IS stripped
entirely. -/
theorem ordinal_strip_paren_cex :
    NetflixService.rowTitleClean "2) Foo" = ") Foo"
    ∧ NetflixService.rowTitleClean "2) Foo" ≠ "Foo"
    ∧ NetflixService.rowTitleClean "01. Foo" = "Foo" := by
  refine ⟨by decide, by decide, by decide⟩

/-- C8 (amended): the regex strips one or two leading digits, an optional
single dot and following whitespace (so `"01. "`-style and `"7 "`-style
prefixes vanish), but after the digits a `")"` stops the match, so of a
`"2) "`-style prefix only the digits are removed. -/
theorem ordinal_strip_amended (t : List Char) :
    NetflixService.jsOrdinalStrip ('0' :: '1' :: '.' :: ' ' :: t)
        = t.dropWhile Char.isWhitespace
    ∧ NetflixService.jsOrdinalStrip ('2' :: ')' :: t) = ')' :: t
    ∧ NetflixService.jsOrdinalStrip ('7' :: ' ' :: t)
        = t.dropWhile Char.isWhitespace := by
  refine ⟨rfl, rfl, rfl⟩

/-- C4 (counterexample): the Netflix enrichment issues its per-title
search requests back to back — its issue trace for two titles has no sleep
between the two searches, violating the claimed 250 ms pacing floor (which
batchSearch, on the CSV-import path, does satisfy). -/
theorem netflix_enrich_unpaced_cex :
    NetflixService.pacedAtLeast 250
        (NetflixService.netflixEnrichTrace ["Title A", "Title B"]) = false
    ∧ NetflixService.pacedAtLeast 250
        (NetflixService.batchSearchTrace ["Title A", "Title B"]) = true := by
  refine ⟨by decide, by decide⟩

/-- C4 (amended): the Netflix Top-10 enrichment issues all title-search
requests with no programmed delay (its trace consists of search events
only), while the 250 ms sequential pacing holds for titleMatcher's
batchSearch, which serves the CSV-import route, not the Netflix path. -/
theorem netflix_parallel_batchSearch_paced (titles : List String) :
    (NetflixService.netflixEnrichTrace titles).all NetflixService.isSearchReq = true
    ∧ NetflixService.pacedAtLeast 250 (NetflixService.batchSearchTrace titles) = true := by
  constructor
  · rw [List.all_eq_true]
    intro e he
    rcases List.mem_map.mp he with ⟨t, _, rfl⟩
    rfl
  · rw [NetflixService.pacedAtLeast]
    induction titles with
    | nil => rfl
    | cons t rest ih =>
      cases rest with
      | nil => rfl
      | cons r rs =>
        rw [NetflixService.batchSearchTrace]
        simp only [NetflixService.pacedAux, Nat.le_refl, decide_True, Bool.true_and,
          Nat.zero_add]
        exact ih

/-- Helper: the static fallback has 9 movie entries and 6 show entries. -/
theorem getFallbackData_length (enc : String → String) (type : NetflixService.MType) :
    (NetflixService.getFallbackData enc type).length
      = (match type with | .movie => 9 | .series => 6) := by
  cases type <;>
    simp [NetflixService.getFallbackData, NetflixService.movieTitles,
      NetflixService.showTitles]

/-- C2 (counterexample): a successful fetch whose page yields exactly one
parsed row makes the reconciler return exactly one item, not ten. -/
theorem scrape_one_row_cex :
    (NetflixService.scrapeNetflixTop10 envNoResults NetflixService.MType.movie true
        [{ rank := 1, title := "Foo", weeks := "2" }]).length = 1
    ∧ (1 : Nat) ≠ 10 := by
  refine ⟨by decide, by decide⟩

/-- C2 (amended): the scrape path returns one item per parsed row up to
ten (so exactly ten only when at least ten rows parse), the fallback is
returned exactly when the fetch failed or no row parsed, and the result is
never empty (the fallback lists are non-empty). -/
theorem scrape_length_characterization (env : NetflixService.NsEnv)
    (type : NetflixService.MType) (fetchOk : Bool) (rows : List NetflixService.RowItem) :
    NetflixService.scrapeNetflixTop10 env type fetchOk rows ≠ []
    ∧ (NetflixService.scrapeNetflixTop10 env type fetchOk rows).length
        = (if fetchOk && !rows.isEmpty then min rows.length 10
           else (NetflixService.getFallbackData env.encodeURIComponent type).length)
    ∧ (NetflixService.getFallbackData env.encodeURIComponent type).length
        = (match type with | .movie => 9 | .series => 6) := by
  refine ⟨?_, ?_, getFallbackData_length _ _⟩
  · cases fetchOk with
    | false =>
      simp only [NetflixService.scrapeNetflixTop10, Bool.not_false, if_true]
      intro hnil
      have := getFallbackData_length env.encodeURIComponent type
      rw [hnil] at this
      cases type <;> simp at this
    | true =>
      simp only [NetflixService.scrapeNetflixTop10, Bool.not_true, Bool.false_eq_true,
        if_false]
      cases hrows : rows.isEmpty with
      | true =>
        simp only [if_true]
        intro hnil
        have := getFallbackData_length env.encodeURIComponent type
        rw [hnil] at this
        cases type <;> simp at this
      | false =>
        simp only [Bool.false_eq_true, if_false]
        intro hnil
        have hlen := congrArg List.length hnil
        rw [List.length_map, List.length_take, List.length_nil] at hlen
        have hne : rows ≠ [] := by simpa using hrows
        have hpos : 0 < rows.length := List.length_pos.mpr hne
        omega
  · cases fetchOk with
    | false =>
      simp [NetflixService.scrapeNetflixTop10]
    | true =>
      cases hrows : rows.isEmpty with
      | true => simp [NetflixService.scrapeNetflixTop10, hrows]
      | false =>
        simp [NetflixService.scrapeNetflixTop10, hrows, List.length_take, Nat.min_comm]

/-- Helper: variations whose attempts all fail are skipped. -/
theorem tryVariationsList_append_none (env : NetflixService.NsEnv) (pre rest : List String)
    (hpre : pre.all (fun u => (NetflixService.attemptVariation env u).isNone) = true) :
    NetflixService.tryVariationsList env (pre ++ rest)
      = NetflixService.tryVariationsList env rest := by
  induction pre with
  | nil => rfl
  | cons u us ih =>
    rw [List.all_cons, Bool.and_eq_true] at hpre
    have hu : NetflixService.attemptVariation env u = none :=
      Option.isNone_iff_eq_none.mp hpre.1
    rw [List.cons_append, NetflixService.tryVariationsList, hu]
    exact ih hpre.2

/-- Helper: first-seen deduplication never lengthens a list. -/
theorem dedupFirstStrAux_length_le (l : List String) :
    ∀ seen : List String,
      (NetflixService.dedupFirstStrAux seen l).length ≤ l.length := by
  induction l with
  | nil => intro seen; exact Nat.le_refl 0
  | cons x xs ih =>
    intro seen
    rw [NetflixService.dedupFirstStrAux]
    by_cases h : seen.contains x
    · simp only [h, if_true]
      exact Nat.le_succ_of_le (ih seen)
    · have hb : seen.contains x = false := by simpa using h
      simp only [hb, Bool.false_eq_true, if_false, List.length_cons]
      exact Nat.succ_le_succ (ih (x :: seen))

/-- C3 (amended): with the API key configured, if the distinct variation
list splits as pre ++ v :: post where every variation in pre fails its
attempt (failed/empty search, or a thrown detail fetch) and v's attempt
succeeds, the reconciler's search returns exactly v's result; and at most
three variations are ever tried. -/
theorem searchTMDB_first_successful_variant (env : NetflixService.NsEnv)
    (title : String) (pre post : List String) (v : String)
    (r : NetflixService.TmdbData)
    (hkey : env.apiKeyConfigured = true)
    (hsplit : NetflixService.uniqueVariations env title = pre ++ v :: post)
    (hpre : pre.all (fun u => (NetflixService.attemptVariation env u).isNone) = true)
    (hv : NetflixService.attemptVariation env v = some r) :
    NetflixService.searchTMDB env title = some r
    ∧ (NetflixService.uniqueVariations env title).length ≤ 3 := by
  constructor
  · rw [NetflixService.searchTMDB, hkey]
    simp only [Bool.not_true, Bool.false_eq_true, if_false]
    rw [hsplit, tryVariationsList_append_none env pre _ hpre,
      NetflixService.tryVariationsList, hv]
  · rw [NetflixService.uniqueVariations]
    exact dedupFirstStrAux_length_le _ _

/-- C3 witness: for "Förlåt" the raw spelling yields no results, and the
search succeeds on the second variant (the transliteration "Foerlaat"). -/
theorem searchTMDB_first_successful_variant_witness :
    NetflixService.searchTMDB envFoerlaat "Förlåt"
        = some { id := 42, imdb_id := some "tt0000042" }
    ∧ envFoerlaat.search "Förlåt" = some [] := by
  refine ⟨?_, by decide⟩
  exact (searchTMDB_first_successful_variant envFoerlaat "Förlåt"
    ["Förlåt"] ["Forlat"] "Foerlaat" { id := 42, imdb_id := some "tt0000042" }
    (by decide) (by decide) (by decide) (by decide)).1

/-- C3 (counterexample): the loop does NOT always stop at the first
variant whose search returns a non-empty result set — when the detail
fetch of that variant's top hit throws, the catch moves on to the next
variant: here the first variant "Aö" finds the record with id 1, yet the
returned record is the second variant's id 2. -/
theorem variant_nonempty_not_stop_cex :
    NetflixService.uniqueVariations envDetailErr "Aö" = ["Aö", "Aoe"]
    ∧ envDetailErr.search "Aö" = some [{ id := 1 }]
    ∧ NetflixService.searchTMDB envDetailErr "Aö"
        = some { id := 2 }
    ∧ ({ id := 2 } : NetflixService.TmdbData) ≠ { id := 1 } := by
  refine ⟨by decide, by decide, by decide, by decide⟩

/-- C5 (counterexample): a catalog read with no session yields an EMPTY
list — the handler short-circuits before the Trakt client runs — even
though the trending substitute is non-empty, so the caller does not
receive the trending endpoint's result as the claim states. -/
theorem trakt_no_session_empty_cex :
    TraktService.catalogHandlerTraktMovie none (fun _ => true) envTrendingOnly none = []
    ∧ Addon.paginate envTrendingOnly.trending none ≠ [] := by
  refine ⟨rfl, by decide⟩

/-- C5 (amended): within the Trakt client an unauthenticated token, a 401,
a thrown fetch, and an empty personalized result set all substitute the
trending result (no error surfaces); but a catalog read whose session is
absent or invalid returns an empty list from the handler without
consulting the client. -/
theorem trakt_fallback_characterization (env : TraktService.TraktEnv)
    (validSession : String → Bool) (extraSkip : Option String) (sid : String) :
    TraktService.catalogHandlerTraktMovie none validSession env extraSkip = []
    ∧ TraktService.catalogHandlerTraktMovie (some sid) validSession env extraSkip
        = (if validSession sid
           then Addon.paginate (TraktService.getMovieRecommendations env) extraSkip
           else [])
    ∧ TraktService.getMovieRecommendations
        { env with
          cached := none
          isAuth := false } = env.trending
    ∧ TraktService.getMovieRecommendations
        { env with
          cached := none
          isAuth := true
          recsResp := TraktService.FetchOutcome.httpErr 401 } = env.trending
    ∧ TraktService.getMovieRecommendations
        { env with
          cached := none
          isAuth := true
          recsResp := TraktService.FetchOutcome.netErr } = env.trending
    ∧ TraktService.getMovieRecommendations
        { env with
          cached := none
          isAuth := true
          recsResp := TraktService.FetchOutcome.ok [] } = env.trending := by
    refine ⟨rfl, ?_, rfl, rfl, rfl, rfl⟩
    cases h : validSession sid <;>
      simp [TraktService.catalogHandlerTraktMovie, h]
